import Mathlib

/-!
Shallow embedding of the web-crawler comparison program
(src/crawler.py, src/app.py, src/database.py, src/config.py).

Modelling conventions:
* Machine `float` time values are modelled as rationals (ℚ); Python's
  `round(x, n)` (banker's rounding, half to even) is modelled by `pyRound`.
* Wall-clock readings (`time.time()`) are ambient inputs: functions that
  measure elapsed time take explicit `startTime`/`endTime` parameters.
  The per-result `response_time` field is not tracked by the model
  (it is pure wall-clock measurement); the model leaves it at its
  dataclass default `0`.
* The HTTP transport plus HTML parse of one attempt is a stub
  `Nat → Attempt` mapping the attempt index to its outcome, mirroring how
  the repository's own tests stub `requests.get` with a side-effect list.
* Exceptions are modelled with `Except`/`Option`: a Python function that
  may raise is a Lean function returning `Except String α` with the
  exception message in the `error` case.
-/

/-- Outcome of one HTTP GET + parse attempt, as produced by a stubbed
transport layer.  `success titleText links statusCode` carries the parsed
`soup.title.string` (if a title tag with a string was present), the number
of `<a href=...>` anchors, and the HTTP status code.  The three error
constructors correspond to the three `except` arms of `fetch_sync` /
`fetch_async` in src/crawler.py: `requests.exceptions.Timeout` /
`asyncio.TimeoutError`, `requests.exceptions.ConnectionError` /
`aiohttp.ClientError`, and any other `Exception` (carrying `str(e)`). -/
inductive Attempt where
  | success (titleText : Option String) (links : Nat) (statusCode : Nat)
  | timeout
  | connectionError (msg : String)
  | otherError (msg : String)
deriving Repr, DecidableEq

/-- `CrawlResult` dataclass of src/crawler.py (lines 14-22), defaults
included.  `response_time` is wall-clock only and stays at its default in
this model. -/
structure CrawlResult where
  url : String
  title : String
  links : Nat
  status_code : Option Nat := none
  error : Option String := none
  response_time : ℚ := 0
  success : Bool := true
deriving Repr, DecidableEq

/-- `WebCrawler.__init__` state (src/crawler.py line 26): `timeout` and
`max_retries`.  Python ints, so `ℤ` (a negative `max_retries` makes
`range(max_retries)` empty). -/
structure WebCrawler where
  timeout : ℤ := 10
  max_retries : ℤ := 2
deriving Repr, DecidableEq

/-- Python `str.strip()`: drop leading and trailing whitespace. -/
def pyStrip (s : String) : String :=
  ⟨((s.data.dropWhile Char.isWhitespace).reverse.dropWhile
      Char.isWhitespace).reverse⟩

/-- Title extraction of src/crawler.py line 50 / 128:
`soup.title.string.strip() if soup.title and soup.title.string else "No Title"`.
`none` models a missing title tag (or a title tag without a string); the
empty string is falsy in Python, hence also yields `"No Title"`. -/
def extractTitle : Option String → String
  | none => "No Title"
  | some t => if t = "" then "No Title" else pyStrip t

/-- Banker's rounding to an integer: Python's built-in `round` on a value
half-way between two integers picks the even one. -/
def roundHalfEven (q : ℚ) : ℤ :=
  let f := ⌊q⌋
  let r := q - (f : ℚ)
  if r < 1/2 then f
  else if 1/2 < r then f + 1
  else if f % 2 = 0 then f else f + 1

/-- Python `round(q, ndigits)` on the rational model of floats. -/
def pyRound (q : ℚ) (ndigits : Nat) : ℚ :=
  (roundHalfEven (q * (10 : ℚ) ^ ndigits) : ℚ) / (10 : ℚ) ^ ndigits

/-- The retry loop `for attempt in range(self.max_retries)` of
`WebCrawler.fetch_sync` (src/crawler.py lines 35-97), as a structural
recursion on the number of loop iterations still to run:
`remaining` iterations remain and the current loop index is `attempt`
(so `remaining = max_retries - attempt`, and the source's last-attempt
test `attempt == self.max_retries - 1` is exactly `remaining = 1`).
Returns the `CrawlResult` together with the number of transport
invocations (stub calls) performed from this point on.  When the loop
runs out without returning (only possible when it never ran at all,
i.e. `max_retries <= 0`) the fall-through result of lines 99-106 is
produced with zero transport invocations. -/
def fetchSyncLoop (url : String) (stub : Nat → Attempt) :
    Nat → Nat → CrawlResult × Nat
  | 0, _ =>
    ({ url := url, title := "Error", links := 0,
       error := some "Max retries exceeded", success := false }, 0)
  | remaining + 1, attempt =>
    match stub attempt with
    | .success titleText links code =>
      ({ url := url, title := extractTitle titleText, links := links,
         status_code := some code, success := true }, 1)
    | .timeout =>
      if remaining = 0 then
        ({ url := url, title := "Timeout Error", links := 0,
           error := some "Request timed out", success := false }, 1)
      else
        let rest := fetchSyncLoop url stub remaining (attempt + 1)
        (rest.1, rest.2 + 1)
    | .connectionError msg =>
      if remaining = 0 then
        ({ url := url, title := "Connection Error", links := 0,
           error := some ("Connection failed: " ++ msg.take 50),
           success := false }, 1)
      else
        let rest := fetchSyncLoop url stub remaining (attempt + 1)
        (rest.1, rest.2 + 1)
    | .otherError msg =>
      ({ url := url, title := "Error", links := 0,
         error := some (msg.take 100), success := false }, 1)

/-- `WebCrawler.fetch_sync` (src/crawler.py lines 30-106) with a stubbed
transport; also yields the number of attempts (stub invocations)
performed.  `range(max_retries)` has `max_retries.toNat` iterations. -/
def WebCrawler.fetch_sync (c : WebCrawler) (url : String)
    (stub : Nat → Attempt) : CrawlResult × Nat :=
  fetchSyncLoop url stub c.max_retries.toNat 0

/-- The retry loop of `WebCrawler.fetch_async` (src/crawler.py lines
111-177).  Identical control flow to `fetchSyncLoop`: the only source
differences are wall-clock only (an `await asyncio.sleep(0.5)` between
retries) or renamings of the same exception taxonomy
(`asyncio.TimeoutError` for `Timeout`, `aiohttp.ClientError` for
`ConnectionError`, `response.status` for `response.status_code`). -/
def fetchAsyncLoop (url : String) (stub : Nat → Attempt) :
    Nat → Nat → CrawlResult × Nat
  | 0, _ =>
    ({ url := url, title := "Error", links := 0,
       error := some "Max retries exceeded", success := false }, 0)
  | remaining + 1, attempt =>
    match stub attempt with
    | .success titleText links code =>
      ({ url := url, title := extractTitle titleText, links := links,
         status_code := some code, success := true }, 1)
    | .timeout =>
      if remaining = 0 then
        ({ url := url, title := "Timeout Error", links := 0,
           error := some "Request timed out", success := false }, 1)
      else
        let rest := fetchAsyncLoop url stub remaining (attempt + 1)
        (rest.1, rest.2 + 1)
    | .connectionError msg =>
      if remaining = 0 then
        ({ url := url, title := "Connection Error", links := 0,
           error := some ("Connection failed: " ++ msg.take 50),
           success := false }, 1)
      else
        let rest := fetchAsyncLoop url stub remaining (attempt + 1)
        (rest.1, rest.2 + 1)
    | .otherError msg =>
      ({ url := url, title := "Error", links := 0,
         error := some (msg.take 100), success := false }, 1)

/-- `WebCrawler.fetch_async` (src/crawler.py lines 108-186) with a stubbed
transport; also yields the number of attempts performed. -/
def WebCrawler.fetch_async (c : WebCrawler) (url : String)
    (stub : Nat → Attempt) : CrawlResult × Nat :=
  fetchAsyncLoop url stub c.max_retries.toNat 0

/-- Elapsed wall-clock time of a runner:
`round(time.time() - start_time, 2)` with the two clock readings made
explicit. -/
def elapsedTime (startTime endTime : ℚ) : ℚ :=
  pyRound (endTime - startTime) 2

/-- The per-task post-processing of `WebCrawler.crawl_async`
(src/crawler.py lines 199-210): a task of `asyncio.gather(...,
return_exceptions=True)` either completed with a `CrawlResult` or faulted
with an exception (modelled as its `str(...)` message); a faulted task is
converted to an error `CrawlResult` with `url="unknown"`. -/
def processGatherItem : Except String CrawlResult → CrawlResult
  | .error e =>
    { url := "unknown", title := "Error", links := 0,
      error := some (e.take 100), success := false }
  | .ok r => r

/-- `WebCrawler.crawl_async` (src/crawler.py lines 188-228).
One task per URL, in input-list order (`asyncio.gather` returns results
positionally, by task index, not by completion order).  `fault url = some
msg` models the task for `url` faulting with an unhandled exception
(caught by `return_exceptions=True`); otherwise the task completes with
`fetch_async`.  `concurrent_limit` only sizes the `aiohttp.TCPConnector`
(scheduling, not results) and is therefore unused here.  The final
dict-per-result conversion copies exactly the seven `CrawlResult` fields
and is the identity in this model. -/
def WebCrawler.crawl_async (c : WebCrawler) (urls : List String)
    (concurrent_limit : Nat) (stub : String → Nat → Attempt)
    (fault : String → Option String) (startTime endTime : ℚ) :
    List CrawlResult × ℚ :=
  let results := urls.map (fun url =>
    match fault url with
    | some msg => Except.error msg
    | none => Except.ok (c.fetch_async url (stub url)).1)
  let processed_results := results.map processGatherItem
  (processed_results, elapsedTime startTime endTime)

/-- `WebCrawler.crawl_threaded` (src/crawler.py lines 230-252).
`executor.map(self.fetch_sync, urls)` yields results in input-list order
whatever the completion order; `workers` only sizes the pool (scheduling,
not results) and is therefore unused for the produced values.  The final
dict conversion is the identity in this model. -/
def WebCrawler.crawl_threaded (c : WebCrawler) (urls : List String)
    (workers : Nat) (stub : String → Nat → Attempt)
    (startTime endTime : ℚ) : List CrawlResult × ℚ :=
  let results := urls.map (fun url => (c.fetch_sync url (stub url)).1)
  (results, elapsedTime startTime endTime)

/-- `WebCrawler.crawl_sequential` (src/crawler.py lines 254-275):
`[self.fetch_sync(url) for url in urls]`, then the identity dict
conversion. -/
def WebCrawler.crawl_sequential (c : WebCrawler) (urls : List String)
    (stub : String → Nat → Attempt) (startTime endTime : ℚ) :
    List CrawlResult × ℚ :=
  let results := urls.map (fun url => (c.fetch_sync url (stub url)).1)
  (results, elapsedTime startTime endTime)

/-- The crawler built by each module-level entry point:
`WebCrawler()` with the `__init__` defaults `timeout=10, max_retries=2`
(src/crawler.py line 26). -/
def defaultWebCrawler : WebCrawler := {}

/-- Module-level `crawl_sequential` (src/crawler.py lines 278-280):
builds a fresh default `WebCrawler` and delegates. -/
def crawl_sequential (urls : List String) (stub : String → Nat → Attempt)
    (startTime endTime : ℚ) : List CrawlResult × ℚ :=
  defaultWebCrawler.crawl_sequential urls stub startTime endTime

/-- Module-level `crawl_parallel` (src/crawler.py lines 283-285):
builds a fresh default `WebCrawler` and delegates to `crawl_threaded`. -/
def crawl_parallel (urls : List String) (workers : Nat)
    (stub : String → Nat → Attempt) (startTime endTime : ℚ) :
    List CrawlResult × ℚ :=
  defaultWebCrawler.crawl_threaded urls workers stub startTime endTime

/-- Module-level `crawl_async_wrapper` (src/crawler.py lines 288-290):
builds a fresh default `WebCrawler` and runs `crawl_async` to
completion. -/
def crawl_async_wrapper (urls : List String) (concurrent_limit : Nat)
    (stub : String → Nat → Attempt) (fault : String → Option String)
    (startTime endTime : ℚ) : List CrawlResult × ℚ :=
  defaultWebCrawler.crawl_async urls concurrent_limit stub fault
    startTime endTime

/-- Row inserted into `crawl_sessions` by
`DatabaseService.save_crawl_session` (src/database.py lines 42-52).
`created_at` (a wall-clock timestamp string) is not tracked by the
model. -/
structure SessionRow where
  url_count : Nat
  sequential_time : ℚ
  threaded_time : ℚ
  async_time : Option ℚ
  success_count : Nat
  fail_count : Nat
  speedup_threaded : ℚ
  speedup_async : Option ℚ
deriving Repr, DecidableEq

/-- The `data` dict of src/database.py lines 42-52, including the two
zero-guarded speedup ratios.  `async_time and async_time > 0` is falsy
when `async_time` is `None` or `0.0`. -/
def mkSessionRow (url_count : Nat) (sequential_time threaded_time : ℚ)
    (async_time : Option ℚ) (success_count fail_count : Nat) :
    SessionRow :=
  { url_count := url_count
    sequential_time := sequential_time
    threaded_time := threaded_time
    async_time := async_time
    success_count := success_count
    fail_count := fail_count
    speedup_threaded :=
      if threaded_time > 0 then pyRound (sequential_time / threaded_time) 2
      else 0
    speedup_async :=
      match async_time with
      | some a => if a > 0 then some (pyRound (sequential_time / a) 2)
                  else none
      | none => none }

/-- Row inserted into `crawl_results` by
`DatabaseService.save_crawl_results` (src/database.py lines 69-82). -/
structure ResultRow where
  session_id : String
  crawl_type : String
  url : String
  title : String
  links : Nat
  status_code : Option Nat
  error : Option String
  response_time : ℚ
  success : Bool
deriving Repr, DecidableEq

/-- Row of the `get_average_speedup` RPC result (src/database.py lines
136-142); `dict.get` with a default means each field may be absent. -/
structure AvgSpeedup where
  avg_speedup_threaded : Option ℚ
  avg_speedup_async : Option ℚ
deriving Repr, DecidableEq

/-- The statistics dict built by `DatabaseService.get_statistics`
(src/database.py lines 139-143) when no error occurs; the empty dict
returned on error or unavailability is modelled as `none` at the call
site. -/
structure Statistics where
  total_sessions : Nat
  average_speedup_threaded : ℚ
  average_speedup_async : ℚ
deriving Repr, DecidableEq

/-- The underlying Supabase client, abstracted at the boundary that
`DatabaseService` calls into: each raw operation may throw (an `error`
carrying the exception message) or return its data.
`insertSession` returns the ids of the rows in `result.data`;
`sessionsSelectCount` returns `none` when the result object lacks a
`count` attribute (the `hasattr` test of line 134); `rpcAverageSpeedup`
returns the rows of `avg_result.data`. -/
structure SupabaseClientModel where
  insertSession : SessionRow → Except String (List String)
  insertResults : List ResultRow → Except String Unit
  selectRecentSessions : Nat → Except String (List SessionRow)
  selectSessionResults : String → Except String (List ResultRow)
  sessionsSelectCount : Except String (Option Nat)
  rpcAverageSpeedup : Except String (List AvgSpeedup)

/-- `DatabaseService` (src/database.py lines 10-26): holds an optional
client; `__init__` leaves it `None` when unconfigured or when client
construction throws. -/
structure DatabaseService where
  client : Option SupabaseClientModel

/-- `DatabaseService.is_available` (src/database.py lines 25-26). -/
def DatabaseService.is_available (svc : DatabaseService) : Bool :=
  svc.client.isSome

/-- `DatabaseService.save_crawl_session` (src/database.py lines 28-62):
`None` when unavailable or when the insert throws; otherwise
`result.data[0]['id'] if result.data else None`. -/
def DatabaseService.save_crawl_session (svc : DatabaseService)
    (url_count : Nat) (sequential_time threaded_time : ℚ)
    (async_time : Option ℚ) (success_count fail_count : Nat) :
    Option String :=
  match svc.client with
  | none => none
  | some client =>
    match client.insertSession
        (mkSessionRow url_count sequential_time threaded_time async_time
          success_count fail_count) with
    | .error _ => none
    | .ok ids => ids.head?

/-- The row list built by `DatabaseService.save_crawl_results`
(src/database.py lines 69-82): one row per result dict, tagged with the
session and the strategy. -/
def mkResultRows (session_id crawl_type : String)
    (results : List CrawlResult) : List ResultRow :=
  results.map (fun r =>
    { session_id := session_id, crawl_type := crawl_type,
      url := r.url, title := r.title, links := r.links,
      status_code := r.status_code, error := r.error,
      response_time := r.response_time,
      success := r.success })

/-- `DatabaseService.save_crawl_results` (src/database.py lines 64-90):
`False` when unavailable, when `session_id` is falsy (empty), or when the
insert throws; `True` on success. -/
def DatabaseService.save_crawl_results (svc : DatabaseService)
    (session_id : String) (results : List CrawlResult)
    (crawl_type : String) : Bool :=
  match svc.client with
  | none => false
  | some client =>
    if session_id = "" then false
    else
      match client.insertResults
          (mkResultRows session_id crawl_type results) with
      | .error _ => false
      | .ok _ => true

/-- `DatabaseService.get_recent_sessions` (src/database.py lines 92-107):
`[]` when unavailable or on error, otherwise the selected rows
(`result.data if result.data else []` is the identity on lists). -/
def DatabaseService.get_recent_sessions (svc : DatabaseService)
    (limit : Nat) : List SessionRow :=
  match svc.client with
  | none => []
  | some client =>
    match client.selectRecentSessions limit with
    | .error _ => []
    | .ok rows => rows

/-- `DatabaseService.get_session_results` (src/database.py lines
109-123): `[]` when unavailable or on error. -/
def DatabaseService.get_session_results (svc : DatabaseService)
    (session_id : String) : List ResultRow :=
  match svc.client with
  | none => []
  | some client =>
    match client.selectSessionResults session_id with
    | .error _ => []
    | .ok rows => rows

/-- `DatabaseService.get_statistics` (src/database.py lines 125-147):
`none` models the empty dict `{}` returned when unavailable or when
either underlying call throws; otherwise the three-field statistics dict,
with absent count/field data defaulting to `0` (`hasattr` test and
`dict.get(key, 0)`). -/
def DatabaseService.get_statistics (svc : DatabaseService) :
    Option Statistics :=
  match svc.client with
  | none => none
  | some client =>
    match client.sessionsSelectCount with
    | .error _ => none
    | .ok cnt =>
      match client.rpcAverageSpeedup with
      | .error _ => none
      | .ok rows =>
        let avg_speedup := rows.head?
        some { total_sessions := cnt.getD 0
               average_speedup_threaded :=
                 (avg_speedup.bind (fun a => a.avg_speedup_threaded)).getD 0
               average_speedup_async :=
                 (avg_speedup.bind (fun a => a.avg_speedup_async)).getD 0 }

/-- One of the three crawl strategies the `index` route runs
(src/app.py lines 54-69). -/
inductive Strategy where
  | sequential
  | threaded
  | async
deriving Repr, DecidableEq

/-- Outcome of invoking one strategy's crawl call from the `index` route:
either the `(results, elapsed)` pair it returned, or the `str(e)` message
of an exception it raised (a `RunnerFault`: the whole strategy failed to
execute). -/
inductive RunOutcome where
  | ok (results : List CrawlResult) (elapsed : ℚ)
  | fault (msg : String)
deriving Repr, DecidableEq

/-- The template context `render_template("index.html", ...)` receives
from the `index` route (src/app.py lines 46-50, 90-102, 106-110); a field
the route did not pass is `none`. -/
structure IndexPage where
  error : Option String := none
  url_count : Nat := 0
  seq_results : Option (List CrawlResult) := none
  par_results : Option (List CrawlResult) := none
  async_results : Option (List CrawlResult) := none
  seq_time : Option ℚ := none
  par_time : Option ℚ := none
  async_time : Option ℚ := none
  success_count : Option Nat := none
  fail_count : Option Nat := none
deriving Repr, DecidableEq

/-- Rendered page plus the strategies whose crawl call was actually
invoked (in invocation order), for reasoning about which strategies a
fault prevents from executing. -/
structure IndexRun where
  page : IndexPage
  executed : List Strategy
deriving Repr, DecidableEq

/-- The `index` route of src/app.py (lines 40-110), with the three crawl
calls stubbed by their outcomes.  Control flow from the source: the whole
body sits in one `try`; only the async crawl has an inner
`try`/`except` of its own (lines 62-69), so an exception from the
sequential or threaded crawl propagates to the outer handler (lines
104-110) which renders an error page, while an async-crawl exception
is logged and leaves `async_results = async_time = None`.
`success_count` counts `r.get('success', False)` over the threaded
(parallel) results.  The database branch (lines 74-88) only performs
side effects through `DatabaseService`, whose operations never raise
(see `DatabaseService` theorems); it does not alter the rendered fields
modelled here. -/
def index (urls : List String) (seqRun parRun asyncRun : RunOutcome)
    (async_enabled : Bool) : IndexRun :=
  if urls.isEmpty then
    { page := { error := some "No URLs found. Please check urls.txt file.",
                url_count := 0 },
      executed := [] }
  else
    match seqRun with
    | .fault msg =>
      { page := { error := some ("An error occurred: " ++ msg),
                  url_count := 0 },
        executed := [.sequential] }
    | .ok seq_results seq_time =>
      match parRun with
      | .fault msg =>
        { page := { error := some ("An error occurred: " ++ msg),
                    url_count := 0 },
          executed := [.sequential, .threaded] }
      | .ok par_results par_time =>
        let asyncOut : Option (List CrawlResult) × Option ℚ × Bool :=
          if async_enabled then
            match asyncRun with
            | .fault _ => (none, none, true)
            | .ok rs t => (some rs, some t, true)
          else (none, none, false)
        let success_count := (par_results.filter (fun r => r.success)).length
        let fail_count := par_results.length - success_count
        { page := { error := none,
                    url_count := urls.length,
                    seq_results := some seq_results,
                    par_results := some par_results,
                    async_results := asyncOut.1,
                    seq_time := some seq_time,
                    par_time := some par_time,
                    async_time := asyncOut.2.1,
                    success_count := some success_count,
                    fail_count := some fail_count },
          executed := [.sequential, .threaded] ++
            (if asyncOut.2.2 then [.async] else []) }

/-- The FetchResult invariant of spec §3: exactly one of
{`error` present, `success = true`} holds. -/
def resultInvariant (r : CrawlResult) : Prop :=
  (r.success = true ∧ r.error = none) ∨ (r.success = false ∧ r.error ≠ none)

instance (r : CrawlResult) : Decidable (resultInvariant r) := by
  unfold resultInvariant; infer_instance

/-- An attempt outcome on which the retry loop retries (when attempts
remain) instead of returning at once. -/
def isRetryable : Attempt → Bool
  | .timeout => true
  | .connectionError _ => true
  | .success _ _ _ => false
  | .otherError _ => false

/-- The non-timing fields of a `CrawlResult`: everything a stubbed
deterministic run determines. -/
def resultContent (r : CrawlResult) :
    String × String × Nat × Option Nat × Option String × Bool :=
  (r.url, r.title, r.links, r.status_code, r.error, r.success)

/-- The async retry loop has the same observable behaviour as the sync
one (the source bodies differ only in `await asyncio.sleep` and exception
class names). -/
theorem fetchAsyncLoop_eq_fetchSyncLoop (url : String)
    (stub : Nat → Attempt) :
    ∀ remaining attempt, fetchAsyncLoop url stub remaining attempt =
      fetchSyncLoop url stub remaining attempt := by
  intro remaining
  induction remaining with
  | zero => intro attempt; rfl
  | succ n ih =>
    intro attempt
    simp only [fetchAsyncLoop, fetchSyncLoop]
    cases stub attempt <;> simp [ih]

/-- Every result the retry loop can produce satisfies the
success/error exclusivity invariant (including the `max_retries <= 0`
fall-through, which carries an error and `success = False`). -/
theorem fetchSyncLoop_invariant (url : String) (stub : Nat → Attempt) :
    ∀ remaining attempt,
      resultInvariant (fetchSyncLoop url stub remaining attempt).1 := by
  intro remaining
  induction remaining with
  | zero => intro attempt; simp [fetchSyncLoop, resultInvariant]
  | succ n ih =>
    intro attempt
    simp only [fetchSyncLoop]
    cases stub attempt with
    | success t l c => simp [resultInvariant]
    | timeout =>
      by_cases h : n = 0
      · simp [h, resultInvariant]
      · simpa [h] using ih (attempt + 1)
    | connectionError m =>
      by_cases h : n = 0
      · simp [h, resultInvariant]
      · simpa [h] using ih (attempt + 1)
    | otherError m => simp [resultInvariant]

/-- One-step unfolding of the loop on a timeout with attempts left. -/
theorem fetchSyncLoop_timeout_step (url : String) (stub : Nat → Attempt)
    (n attempt : Nat) (h : stub attempt = .timeout) (hn : n ≠ 0) :
    fetchSyncLoop url stub (n + 1) attempt =
      ((fetchSyncLoop url stub n (attempt + 1)).1,
       (fetchSyncLoop url stub n (attempt + 1)).2 + 1) := by
  simp only [fetchSyncLoop]
  rw [h]
  simp [hn]

/-- One-step unfolding of the loop on a connection error with attempts
left. -/
theorem fetchSyncLoop_conn_step (url : String) (stub : Nat → Attempt)
    (n attempt : Nat) (m : String) (h : stub attempt = .connectionError m)
    (hn : n ≠ 0) :
    fetchSyncLoop url stub (n + 1) attempt =
      ((fetchSyncLoop url stub n (attempt + 1)).1,
       (fetchSyncLoop url stub n (attempt + 1)).2 + 1) := by
  simp only [fetchSyncLoop]
  rw [h]
  simp [hn]

/-- Retry law at loop level: timeouts on every attempt but the last,
success on the last, gives the success result after exactly `remaining`
transport invocations. -/
theorem fetchSyncLoop_timeouts_then_success (url : String)
    (stub : Nat → Attempt) (t : Option String) (l c : Nat) :
    ∀ remaining attempt, 0 < remaining →
      (∀ j, j < remaining - 1 → stub (attempt + j) = .timeout) →
      stub (attempt + (remaining - 1)) = .success t l c →
      fetchSyncLoop url stub remaining attempt =
        ({ url := url, title := extractTitle t, links := l,
           status_code := some c, success := true }, remaining) := by
  intro remaining
  induction remaining with
  | zero => intro attempt h; omega
  | succ n ih =>
    intro attempt _ hpre hlast
    cases n with
    | zero =>
      have h0 : stub attempt = .success t l c := by simpa using hlast
      simp [fetchSyncLoop, h0]
    | succ m =>
      have h0 : stub attempt = .timeout := by
        have := hpre 0 (by omega)
        simpa using this
      have hrec := ih (attempt + 1) (by omega)
        (fun j hj => by
          have := hpre (j + 1) (by omega)
          simpa [Nat.add_assoc, Nat.add_comm 1 j] using this)
        (by
          have : attempt + 1 + (m + 1 - 1) = attempt + (m + 1 + 1 - 1) := by
            omega
          rw [this]
          simpa using hlast)
      rw [fetchSyncLoop_timeout_step url stub (m + 1) attempt h0 (by omega),
        hrec]

/-- Exhaustion law at loop level: a transport that always times out
yields the timeout-error result after exactly `remaining` transport
invocations. -/
theorem fetchSyncLoop_all_timeout (url : String) (stub : Nat → Attempt)
    (hstub : ∀ j, stub j = .timeout) :
    ∀ remaining attempt, 0 < remaining →
      fetchSyncLoop url stub remaining attempt =
        ({ url := url, title := "Timeout Error", links := 0,
           error := some "Request timed out", success := false },
         remaining) := by
  intro remaining
  induction remaining with
  | zero => intro attempt h; omega
  | succ n ih =>
    intro attempt _
    cases n with
    | zero => simp [fetchSyncLoop, hstub attempt]
    | succ m =>
      have hrec := ih (attempt + 1) (by omega)
      rw [fetchSyncLoop_timeout_step url stub (m + 1) attempt
        (hstub attempt) (by omega), hrec]

/-- Immediate-return law at loop level: retryable outcomes on the first
`k` attempts and a non-timeout, non-connection exception on attempt `k`
(with attempts still remaining) give the truncated-message error result
after exactly `k + 1` transport invocations. -/
theorem fetchSyncLoop_other_error (url : String) (stub : Nat → Attempt)
    (m : String) :
    ∀ k remaining attempt, k < remaining →
      (∀ j, j < k → isRetryable (stub (attempt + j)) = true) →
      stub (attempt + k) = .otherError m →
      fetchSyncLoop url stub remaining attempt =
        ({ url := url, title := "Error", links := 0,
           error := some (m.take 100), success := false }, k + 1) := by
  intro k
  induction k with
  | zero =>
    intro remaining attempt hk _ herr
    cases remaining with
    | zero => omega
    | succ n =>
      have h0 : stub attempt = .otherError m := by simpa using herr
      simp [fetchSyncLoop, h0]
  | succ k ih =>
    intro remaining attempt hk hpre herr
    cases remaining with
    | zero => omega
    | succ n =>
      have hn : n ≠ 0 := by omega
      have hrec := ih n (attempt + 1) (by omega)
        (fun j hj => by
          have := hpre (j + 1) (by omega)
          simpa [Nat.add_assoc, Nat.add_comm 1 j] using this)
        (by
          have : attempt + 1 + k = attempt + (k + 1) := by omega
          rw [this]; exact herr)
      have h0 := hpre 0 (by omega)
      simp only [Nat.add_zero] at h0
      cases hs : stub attempt with
      | success t l c => rw [hs] at h0; simp [isRetryable] at h0
      | timeout =>
        rw [fetchSyncLoop_timeout_step url stub n attempt hs hn, hrec]
      | connectionError cm =>
        rw [fetchSyncLoop_conn_step url stub n attempt cm hs hn, hrec]
      | otherError om => rw [hs] at h0; simp [isRetryable] at h0

/-- C1: for every `maxRetries >= 1`, `fetch` (sync and async) performs at
most `maxRetries` attempts: if the stub times out on the first
`maxRetries - 1` attempts and succeeds on the last, `fetch` returns
`success = true` and the stub is invoked exactly `maxRetries` times; if
the stub times out on every attempt, the stub is invoked exactly
`maxRetries` times and `fetch` returns `success = false`,
title `"Timeout Error"`, error `"Request timed out"`. -/
theorem fetch_retry_and_exhaustion (c : WebCrawler) (url : String)
    (stub : Nat → Attempt) (t : Option String) (l sc : Nat)
    (hpos : 1 ≤ c.max_retries) :
    ((∀ j, j < c.max_retries.toNat - 1 → stub j = .timeout) →
      stub (c.max_retries.toNat - 1) = .success t l sc →
      (c.fetch_sync url stub).1.success = true ∧
      ((c.fetch_sync url stub).2 : ℤ) = c.max_retries ∧
      (c.fetch_async url stub).1.success = true ∧
      ((c.fetch_async url stub).2 : ℤ) = c.max_retries) ∧
    ((∀ j, stub j = .timeout) →
      (c.fetch_sync url stub).1 =
        { url := url, title := "Timeout Error", links := 0,
          error := some "Request timed out", success := false } ∧
      ((c.fetch_sync url stub).2 : ℤ) = c.max_retries ∧
      (c.fetch_async url stub).1 =
        { url := url, title := "Timeout Error", links := 0,
          error := some "Request timed out", success := false } ∧
      ((c.fetch_async url stub).2 : ℤ) = c.max_retries) := by
  have hn : 0 < c.max_retries.toNat := by omega
  have hcast : (c.max_retries.toNat : ℤ) = c.max_retries := by omega
  constructor
  · intro hpre hlast
    have hs := fetchSyncLoop_timeouts_then_success url stub t l sc
      c.max_retries.toNat 0 hn
      (fun j hj => by simpa using hpre j hj)
      (by simpa using hlast)
    refine ⟨?_, ?_, ?_, ?_⟩ <;>
      simp [WebCrawler.fetch_sync, WebCrawler.fetch_async,
        fetchAsyncLoop_eq_fetchSyncLoop, hs, hcast]
  · intro hstub
    have hs := fetchSyncLoop_all_timeout url stub hstub
      c.max_retries.toNat 0 hn
    refine ⟨?_, ?_, ?_, ?_⟩ <;>
      simp [WebCrawler.fetch_sync, WebCrawler.fetch_async,
        fetchAsyncLoop_eq_fetchSyncLoop, hs, hcast]

/-- Witness for C1: `max_retries = 2`, once with a timeout-then-success
stub and once with an always-timeout stub. -/
theorem fetch_retry_and_exhaustion_witness :
    ((WebCrawler.fetch_sync { max_retries := 2 } "https://a.test"
        (fun j => if j = 0 then Attempt.timeout
                  else Attempt.success (some "A") 2 200)).1.success = true ∧
     ((WebCrawler.fetch_sync { max_retries := 2 } "https://a.test"
        (fun j => if j = 0 then Attempt.timeout
                  else Attempt.success (some "A") 2 200)).2 : ℤ) = 2) ∧
    ((WebCrawler.fetch_sync { max_retries := 2 } "https://b.test"
        (fun _ => Attempt.timeout)).1 =
      { url := "https://b.test", title := "Timeout Error", links := 0,
        error := some "Request timed out", success := false } ∧
     ((WebCrawler.fetch_sync { max_retries := 2 } "https://b.test"
        (fun _ => Attempt.timeout)).2 : ℤ) = 2) := by
  constructor
  · have h := (fetch_retry_and_exhaustion { max_retries := 2 }
      "https://a.test"
      (fun j => if j = 0 then Attempt.timeout
                else Attempt.success (some "A") 2 200)
      (some "A") 2 200 (by decide)).1 (by decide) (by decide)
    exact ⟨h.1, h.2.1⟩
  · have h := (fetch_retry_and_exhaustion { max_retries := 2 }
      "https://b.test" (fun _ => Attempt.timeout)
      none 0 0 (by decide)).2 (fun _ => rfl)
    exact ⟨h.1, h.2.1⟩

/-- C2: every `FetchResult` produced by a fetch (sync or async, and every
element of the gather-level `crawl_async` output, faulted tasks included)
satisfies: exactly one of {`error` present, `success = true`} holds.
This holds with no exception: the `max_retries <= 0` fall-through result
also carries `success = false` with an error message. -/
theorem fetch_result_invariant (c : WebCrawler) (url : String)
    (urls : List String) (stub : Nat → Attempt)
    (stubs : String → Nat → Attempt) (fault : String → Option String)
    (cl : Nat) (s e : ℚ) :
    resultInvariant (c.fetch_sync url stub).1 ∧
    resultInvariant (c.fetch_async url stub).1 ∧
    ∀ r ∈ (c.crawl_async urls cl stubs fault s e).1, resultInvariant r := by
  refine ⟨fetchSyncLoop_invariant url stub _ 0, ?_, ?_⟩
  · show resultInvariant (fetchAsyncLoop url stub c.max_retries.toNat 0).1
    rw [fetchAsyncLoop_eq_fetchSyncLoop]
    exact fetchSyncLoop_invariant url stub _ 0
  · intro r hr
    simp only [WebCrawler.crawl_async, List.map_map, List.mem_map,
      Function.comp] at hr
    obtain ⟨u, _, rfl⟩ := hr
    cases hf : fault u with
    | some m => simp [hf, processGatherItem, resultInvariant]
    | none =>
      simp only [hf, processGatherItem]
      show resultInvariant (fetchAsyncLoop u (stubs u) c.max_retries.toNat 0).1
      rw [fetchAsyncLoop_eq_fetchSyncLoop]
      exact fetchSyncLoop_invariant u (stubs u) _ 0

/-- Witness for C2: a timed-out sync fetch, a timed-out async fetch, and
the faulted-task record of a gather. -/
theorem fetch_result_invariant_witness :
    resultInvariant (WebCrawler.fetch_sync {} "https://a.test"
      (fun _ => Attempt.timeout)).1 ∧
    resultInvariant (WebCrawler.fetch_async {} "https://a.test"
      (fun _ => Attempt.timeout)).1 ∧
    resultInvariant ({ url := "unknown", title := "Error", links := 0,
                       error := some ("boom".take 100),
                       success := false } : CrawlResult) := by
  obtain ⟨h1, h2, h3⟩ := fetch_result_invariant {} "https://a.test"
    ["https://b.test"] (fun _ => Attempt.timeout)
    (fun _ _ => Attempt.timeout) (fun _ => some "boom") 50 0 0
  refine ⟨h1, h2, ?_⟩
  have hmem : ({ url := "unknown", title := "Error", links := 0,
                 error := some ("boom".take 100),
                 success := false } : CrawlResult) ∈
      (WebCrawler.crawl_async {} ["https://b.test"] 50
        (fun _ _ => Attempt.timeout) (fun _ => some "boom") 0 0).1 := by
    simp [WebCrawler.crawl_async, processGatherItem]
  exact h3 _ hmem

/-- C4: for every `maxRetries <= 0`, `fetch` (sync and async) returns the
fall-through `success = false`, `error = "Max retries exceeded"` result
without performing any attempt (the stub is invoked zero times). -/
theorem fetch_zero_retries (c : WebCrawler) (url : String)
    (stub : Nat → Attempt) (h : c.max_retries ≤ 0) :
    c.fetch_sync url stub =
      ({ url := url, title := "Error", links := 0,
         error := some "Max retries exceeded", success := false }, 0) ∧
    c.fetch_async url stub =
      ({ url := url, title := "Error", links := 0,
         error := some "Max retries exceeded", success := false }, 0) := by
  have h0 : c.max_retries.toNat = 0 := by omega
  constructor <;>
    simp [WebCrawler.fetch_sync, WebCrawler.fetch_async, h0,
      fetchSyncLoop, fetchAsyncLoop]

/-- Witness for C4 at `max_retries = -1`. -/
theorem fetch_zero_retries_witness :
    (-1 : ℤ) ≤ 0 ∧
    WebCrawler.fetch_sync { max_retries := -1 } "https://a.test"
      (fun _ => Attempt.success (some "A") 1 200) =
      ({ url := "https://a.test", title := "Error", links := 0,
         error := some "Max retries exceeded", success := false }, 0) :=
  ⟨by decide,
   (fetch_zero_retries { max_retries := -1 } "https://a.test"
     (fun _ => Attempt.success (some "A") 1 200) (by decide)).1⟩

/-- C7: an exception that is neither a timeout nor a connection failure,
raised on any attempt `k` of the retry loop (after retryable outcomes on
the earlier attempts), makes `fetch` (sync and async) return immediately
on that attempt — `k + 1` stub invocations, no further retries however
many remain — with `success = false`, title `"Error"`, `links = 0`, and
the error message truncated to at most 100 characters. -/
theorem fetch_other_error_no_retry (c : WebCrawler) (url : String)
    (stub : Nat → Attempt) (m : String) (k : Nat)
    (hk : k < c.max_retries.toNat)
    (hpre : ∀ j, j < k → isRetryable (stub j) = true)
    (herr : stub k = .otherError m) :
    c.fetch_sync url stub =
      ({ url := url, title := "Error", links := 0,
         error := some (m.take 100), success := false }, k + 1) ∧
    c.fetch_async url stub =
      ({ url := url, title := "Error", links := 0,
         error := some (m.take 100), success := false }, k + 1) := by
  have hs := fetchSyncLoop_other_error url stub m k c.max_retries.toNat 0
    hk (fun j hj => by simpa using hpre j hj) (by simpa using herr)
  constructor
  · exact hs
  · show fetchAsyncLoop url stub c.max_retries.toNat 0 = _
    rw [fetchAsyncLoop_eq_fetchSyncLoop]
    exact hs

/-- Witness for C7: `max_retries = 3`, a timeout on attempt 0 and a parse
error on attempt 1 — the third attempt never happens. -/
theorem fetch_other_error_no_retry_witness :
    WebCrawler.fetch_sync { max_retries := 3 } "https://a.test"
      (fun j => if j = 0 then Attempt.timeout
                else Attempt.otherError "parse failure") =
      ({ url := "https://a.test", title := "Error", links := 0,
         error := some ("parse failure".take 100),
         success := false }, 2) :=
  (fetch_other_error_no_retry { max_retries := 3 }
    "https://a.test"
    (fun j => if j = 0 then Attempt.timeout
              else Attempt.otherError "parse failure")
    "parse failure" 1 (by decide) (by decide) (by decide)).1

/-- Banker's rounding never turns a nonnegative value negative. -/
theorem roundHalfEven_nonneg (q : ℚ) (hq : 0 ≤ q) :
    0 ≤ roundHalfEven q := by
  have hf : (0 : ℤ) ≤ ⌊q⌋ := Int.floor_nonneg.mpr hq
  unfold roundHalfEven
  dsimp only
  split
  · exact hf
  · split
    · omega
    · split <;> omega

/-- Python `round(q, n)` of a nonnegative value is nonnegative. -/
theorem pyRound_nonneg (q : ℚ) (n : Nat) (hq : 0 ≤ q) :
    0 ≤ pyRound q n := by
  unfold pyRound
  apply div_nonneg
  · exact_mod_cast roundHalfEven_nonneg _ (by positivity)
  · positivity

/-- A non-decreasing clock gives a nonnegative rounded elapsed time. -/
theorem elapsedTime_nonneg (s e : ℚ) (h : s ≤ e) :
    0 ≤ elapsedTime s e :=
  pyRound_nonneg _ _ (by linarith)

/-- C3: for every URL list, each of the three runners returns a result
sequence of the same length as the input, whose element at position `i`
is the fetch outcome for the `i`-th input URL (order by URL position,
not completion order); on the empty list each runner returns an empty
sequence and a nonnegative elapsed time, never an error. -/
theorem runner_length_order_empty (c : WebCrawler) (urls : List String)
    (stubs : String → Nat → Attempt) (fault : String → Option String)
    (workers cl : Nat) (s e : ℚ) (hclock : s ≤ e) :
    ((c.crawl_sequential urls stubs s e).1.length = urls.length ∧
     (c.crawl_threaded urls workers stubs s e).1.length = urls.length ∧
     (c.crawl_async urls cl stubs fault s e).1.length = urls.length) ∧
    (∀ (i : Nat) (u : String), urls[i]? = some u →
      (c.crawl_sequential urls stubs s e).1[i]? =
        some (c.fetch_sync u (stubs u)).1 ∧
      (c.crawl_threaded urls workers stubs s e).1[i]? =
        some (c.fetch_sync u (stubs u)).1 ∧
      (c.crawl_async urls cl stubs fault s e).1[i]? =
        some (processGatherItem
          (match fault u with
           | some msg => Except.error msg
           | none => Except.ok (c.fetch_async u (stubs u)).1))) ∧
    ((c.crawl_sequential [] stubs s e).1 = [] ∧
     (c.crawl_threaded [] workers stubs s e).1 = [] ∧
     (c.crawl_async [] cl stubs fault s e).1 = [] ∧
     0 ≤ (c.crawl_sequential [] stubs s e).2 ∧
     0 ≤ (c.crawl_threaded [] workers stubs s e).2 ∧
     0 ≤ (c.crawl_async [] cl stubs fault s e).2) := by
  refine ⟨⟨?_, ?_, ?_⟩, ?_, ?_, ?_, ?_, ?_, ?_, ?_⟩
  · simp [WebCrawler.crawl_sequential]
  · simp [WebCrawler.crawl_threaded]
  · simp [WebCrawler.crawl_async]
  · intro i u hu
    refine ⟨?_, ?_, ?_⟩ <;>
      simp [WebCrawler.crawl_sequential, WebCrawler.crawl_threaded,
        WebCrawler.crawl_async, List.getElem?_map, hu]
  · rfl
  · rfl
  · rfl
  · exact elapsedTime_nonneg s e hclock
  · exact elapsedTime_nonneg s e hclock
  · exact elapsedTime_nonneg s e hclock

/-- Witness for C3 on a two-URL list with a deterministic stub. -/
theorem runner_length_order_empty_witness :
    ((WebCrawler.crawl_sequential {} ["https://a.test", "https://b.test"]
        (fun _ _ => Attempt.success (some "A") 2 200)
        0 1).1.length = 2 ∧
     (WebCrawler.crawl_sequential {} ["https://a.test", "https://b.test"]
        (fun _ _ => Attempt.success (some "A") 2 200)
        0 1).1[1]? =
       some (WebCrawler.fetch_sync {} "https://b.test"
         (fun _ => Attempt.success (some "A") 2 200)).1) ∧
    (WebCrawler.crawl_async {} ([] : List String) 50
      (fun _ _ => Attempt.success (some "A") 2 200)
      (fun _ => none) 0 1).1 = [] ∧
    0 ≤ (WebCrawler.crawl_async {} ([] : List String) 50
      (fun _ _ => Attempt.success (some "A") 2 200)
      (fun _ => none) 0 1).2 := by
  have h := runner_length_order_empty {}
    ["https://a.test", "https://b.test"]
    (fun _ => (fun _ => Attempt.success (some "A") 2 200))
    (fun _ => none) 10 50 0 1 (by norm_num)
  exact ⟨⟨h.1.1, (h.2.1 1 "https://b.test" (by decide)).1⟩,
    h.2.2.2.2.1, h.2.2.2.2.2.2.2⟩

/-- C6: in `crawl_async`, an exception escaping a single fetch task is
never propagated: the faulted task at position `i` becomes a
`FetchResult` with `url = "unknown"`, title `"Error"`,
`success = false`, `links = 0` and the fault message truncated to at
most 100 characters, while a sibling task that did not fault yields its
own `fetch_async` result unchanged. -/
theorem crawl_async_fault_isolation (c : WebCrawler) (urls : List String)
    (cl : Nat) (stubs : String → Nat → Attempt)
    (fault : String → Option String) (s e : ℚ) (i : Nat) (u m : String)
    (hu : urls[i]? = some u) :
    (fault u = some m →
      (c.crawl_async urls cl stubs fault s e).1[i]? =
        some { url := "unknown", title := "Error", links := 0,
               error := some (m.take 100), success := false }) ∧
    (fault u = none →
      (c.crawl_async urls cl stubs fault s e).1[i]? =
        some (c.fetch_async u (stubs u)).1) := by
  constructor <;> intro hf <;>
    simp [WebCrawler.crawl_async, List.getElem?_map, hu, hf,
      processGatherItem]

/-- Witness for C6: two tasks, the second faults — the first is
unaffected and the second becomes the `url="unknown"` error record. -/
theorem crawl_async_fault_isolation_witness :
    (WebCrawler.crawl_async {} ["https://a.test", "https://b.test"] 50
      (fun _ _ => Attempt.success (some "A") 2 200)
      (fun u => if u = "https://b.test" then some "task blew up"
                else none) 0 1).1[1]? =
      some { url := "unknown", title := "Error", links := 0,
             error := some ("task blew up".take 100), success := false } ∧
    (WebCrawler.crawl_async {} ["https://a.test", "https://b.test"] 50
      (fun _ _ => Attempt.success (some "A") 2 200)
      (fun u => if u = "https://b.test" then some "task blew up"
                else none) 0 1).1[0]? =
      some (WebCrawler.fetch_async {} "https://a.test"
        (fun _ => Attempt.success (some "A") 2 200)).1 := by
  constructor
  · exact (crawl_async_fault_isolation {}
      ["https://a.test", "https://b.test"] 50
      (fun _ _ => Attempt.success (some "A") 2 200)
      (fun u => if u = "https://b.test" then some "task blew up"
                else none) 0 1 1 "https://b.test" "task blew up"
      (by decide)).1 (by decide)
  · exact (crawl_async_fault_isolation {}
      ["https://a.test", "https://b.test"] 50
      (fun _ _ => Attempt.success (some "A") 2 200)
      (fun u => if u = "https://b.test" then some "task blew up"
                else none) 0 1 0 "https://a.test" ""
      (by decide)).2 (by decide)

/-- C8: the pooled runner with one worker produces the same result
contents (url, title, links, status code, error, success — every
non-timing field), in the same order, as the sequential runner on the
same URL list with the same deterministic stub; only measured timing may
differ. -/
theorem pooled_one_worker_eq_sequential (c : WebCrawler)
    (urls : List String) (stubs : String → Nat → Attempt)
    (s1 e1 s2 e2 : ℚ) :
    (c.crawl_threaded urls 1 stubs s1 e1).1.map resultContent =
    (c.crawl_sequential urls stubs s2 e2).1.map resultContent := rfl

/-- C9: the module-level entry points build a fresh `WebCrawler` with the
hard-coded defaults `timeout = 10`, `max_retries = 2` on every call, so
no configured timeout or retry count can reach the fetch routine through
them. -/
theorem module_entry_points_use_defaults (urls : List String)
    (stubs : String → Nat → Attempt) (fault : String → Option String)
    (workers cl : Nat) (s e : ℚ) :
    defaultWebCrawler.timeout = 10 ∧
    defaultWebCrawler.max_retries = 2 ∧
    crawl_sequential urls stubs s e =
      WebCrawler.crawl_sequential { timeout := 10, max_retries := 2 }
        urls stubs s e ∧
    crawl_parallel urls workers stubs s e =
      WebCrawler.crawl_threaded { timeout := 10, max_retries := 2 }
        urls workers stubs s e ∧
    crawl_async_wrapper urls cl stubs fault s e =
      WebCrawler.crawl_async { timeout := 10, max_retries := 2 }
        urls cl stubs fault s e :=
  ⟨rfl, rfl, rfl, rfl, rfl⟩

example :
    WebCrawler.fetch_sync { max_retries := 3 } "https://a.test"
      (fun _ => .timeout) =
    ({ url := "https://a.test", title := "Timeout Error", links := 0,
       error := some "Request timed out", success := false }, 3) := by decide

/-- C5 counterexample: with a one-URL list, a fault in the sequential
crawl reaches the route-level handler — the threaded (pooled) strategy is
never executed and the whole comparison is replaced by an error page, so
a fault in one strategy is not isolated from the others. -/
theorem comparator_no_isolation_cex :
    Strategy.threaded ∉
      (index ["https://a.test"] (.fault "boom")
        (.ok [] 0) (.ok [] 0) true).executed ∧
    (index ["https://a.test"] (.fault "boom")
      (.ok [] 0) (.ok [] 0) true).page.error =
      some "An error occurred: boom" ∧
    (index ["https://a.test"] (.fault "boom")
      (.ok [] 0) (.ok [] 0) true).page.par_results = none := by
  refine ⟨?_, rfl, rfl⟩
  decide

/-- C5 amended: only the async (bounded) strategy is run in isolation.
An exception from the async crawl is caught by its inner handler and
rendered as an absent entry (`async_results = None`) with the sequential
and threaded results intact; an exception from the sequential crawl
aborts the comparison before the threaded and async strategies execute,
and an exception from the threaded crawl aborts it before the async
strategy executes, each rendering an error page instead. -/
theorem comparator_async_only_isolation (urls : List String)
    (hurls : urls ≠ []) (seqR parR : List CrawlResult) (seqT parT : ℚ)
    (m : String) (anyPar anyAsync : RunOutcome) (enabled : Bool) :
    (index urls (.ok seqR seqT) (.ok parR parT) (.fault m) true =
      { page := { error := none, url_count := urls.length,
                  seq_results := some seqR, par_results := some parR,
                  async_results := none, seq_time := some seqT,
                  par_time := some parT, async_time := none,
                  success_count :=
                    some (parR.filter (fun r => r.success)).length,
                  fail_count :=
                    some (parR.length -
                      (parR.filter (fun r => r.success)).length) },
        executed := [.sequential, .threaded, .async] }) ∧
    ((index urls (.fault m) anyPar anyAsync enabled).executed =
        [.sequential] ∧
     (index urls (.fault m) anyPar anyAsync enabled).page.error =
        some ("An error occurred: " ++ m)) ∧
    ((index urls (.ok seqR seqT) (.fault m) anyAsync enabled).executed =
        [.sequential, .threaded] ∧
     (index urls (.ok seqR seqT) (.fault m) anyAsync enabled).page.error =
        some ("An error occurred: " ++ m)) := by
  have hne : urls.isEmpty = false := by
    simpa [List.isEmpty_iff] using hurls
  refine ⟨?_, ⟨?_, ?_⟩, ⟨?_, ?_⟩⟩ <;> simp [index, hne]

/-- Witness for the amended C5 on a concrete one-URL comparison. -/
theorem comparator_async_only_isolation_witness :
    (index ["https://a.test"] (.ok [] 1) (.ok [] 2) (.fault "boom")
        true).page.async_results = none ∧
    (index ["https://a.test"] (.ok [] 1) (.ok [] 2) (.fault "boom")
        true).page.par_results = some [] ∧
    (index ["https://a.test"] (.fault "seq down") (.ok [] 2)
        (.ok [] 3) true).executed = [.sequential] := by
  have h := comparator_async_only_isolation ["https://a.test"]
    (by decide) [] [] 1 2 "boom" (.ok [] 2) (.ok [] 3) true
  have h2 := comparator_async_only_isolation ["https://a.test"]
    (by decide) [] [] 1 2 "seq down" (.ok [] 2) (.ok [] 3) true
  refine ⟨?_, ?_, h2.2.1.1⟩
  · rw [h.1]
  · rw [h.1]

/-- C10: no `DatabaseService` operation raises: with no client, or when
the underlying client call throws, `save_crawl_session` returns `None`,
`save_crawl_results` returns `False`, `get_recent_sessions` and
`get_session_results` return `[]` and `get_statistics` returns the empty
dict; the threaded speedup is `sequential_time / threaded_time` only when
`threaded_time > 0` (else `0`) and the async speedup only when
`async_time > 0` (else `None`), so the division is always guarded. -/
theorem database_service_never_raises (svc : DatabaseService)
    (client : SupabaseClientModel) (uc sc fc : Nat) (st tt a : ℚ)
    (atime : Option ℚ) (sid ctype emsg : String)
    (results : List CrawlResult) (limit : Nat) :
    (svc.client = none →
      svc.save_crawl_session uc st tt atime sc fc = none ∧
      svc.save_crawl_results sid results ctype = false ∧
      svc.get_recent_sessions limit = [] ∧
      svc.get_session_results sid = [] ∧
      svc.get_statistics = none) ∧
    (svc.client = some client →
      (client.insertSession (mkSessionRow uc st tt atime sc fc) =
          .error emsg →
        svc.save_crawl_session uc st tt atime sc fc = none) ∧
      (client.insertResults (mkResultRows sid ctype results) =
          .error emsg →
        svc.save_crawl_results sid results ctype = false) ∧
      (client.selectRecentSessions limit = .error emsg →
        svc.get_recent_sessions limit = []) ∧
      (client.selectSessionResults sid = .error emsg →
        svc.get_session_results sid = []) ∧
      (client.sessionsSelectCount = .error emsg →
        svc.get_statistics = none) ∧
      (client.rpcAverageSpeedup = .error emsg →
        svc.get_statistics = none)) ∧
    (tt ≤ 0 → (mkSessionRow uc st tt atime sc fc).speedup_threaded = 0) ∧
    (0 < tt → (mkSessionRow uc st tt atime sc fc).speedup_threaded =
      pyRound (st / tt) 2) ∧
    (atime = none → (mkSessionRow uc st tt atime sc fc).speedup_async =
      none) ∧
    (atime = some a → a ≤ 0 →
      (mkSessionRow uc st tt atime sc fc).speedup_async = none) ∧
    (atime = some a → 0 < a →
      (mkSessionRow uc st tt atime sc fc).speedup_async =
        some (pyRound (st / a) 2)) := by
  refine ⟨?_, ?_, ?_, ?_, ?_, ?_, ?_⟩
  · intro h
    refine ⟨?_, ?_, ?_, ?_, ?_⟩ <;>
      simp [DatabaseService.save_crawl_session,
        DatabaseService.save_crawl_results,
        DatabaseService.get_recent_sessions,
        DatabaseService.get_session_results,
        DatabaseService.get_statistics, h]
  · intro h
    refine ⟨?_, ?_, ?_, ?_, ?_, ?_⟩ <;> intro herr
    · simp [DatabaseService.save_crawl_session, h, herr]
    · simp [DatabaseService.save_crawl_results, h, herr]
    · simp [DatabaseService.get_recent_sessions, h, herr]
    · simp [DatabaseService.get_session_results, h, herr]
    · simp [DatabaseService.get_statistics, h, herr]
    · simp only [DatabaseService.get_statistics, h]
      cases client.sessionsSelectCount <;> simp [herr]
  · intro h
    simp [mkSessionRow, not_lt.mpr h]
  · intro h
    simp [mkSessionRow, h]
  · intro h
    simp [mkSessionRow, h]
  · intro h ha
    simp [mkSessionRow, h, not_lt.mpr ha]
  · intro h ha
    simp [mkSessionRow, h, ha]

/-- A client whose every underlying call throws, exercising the error
paths of every `DatabaseService` operation. -/
def throwingClient : SupabaseClientModel :=
  { insertSession := fun _ => .error "db down"
    insertResults := fun _ => .error "db down"
    selectRecentSessions := fun _ => .error "db down"
    selectSessionResults := fun _ => .error "db down"
    sessionsSelectCount := .error "db down"
    rpcAverageSpeedup := .error "db down" }

/-- Witness for C10: an unconfigured service, a service whose client
throws everywhere, and the zero-guarded speedups at
`threaded_time = 0`, `async_time = 0`. -/
theorem database_service_never_raises_witness :
    DatabaseService.save_crawl_session { client := none }
      3 5 0 (some 0) 1 2 = none ∧
    DatabaseService.save_crawl_session { client := some throwingClient }
      3 5 0 (some 0) 1 2 = none ∧
    DatabaseService.get_statistics { client := some throwingClient } =
      none ∧
    (mkSessionRow 3 5 0 (some 0) 1 2).speedup_threaded = 0 ∧
    (mkSessionRow 3 5 0 (some 0) 1 2).speedup_async = none := by
  have h0 := database_service_never_raises { client := none }
    throwingClient 3 1 2 5 0 0 (some 0) "s" "sequential" "db down" [] 10
  have hT := database_service_never_raises
    { client := some throwingClient }
    throwingClient 3 1 2 5 0 0 (some 0) "s" "sequential" "db down" [] 10
  exact ⟨(h0.1 rfl).1, (hT.2.1 rfl).1 rfl, (hT.2.1 rfl).2.2.2.2.1 rfl,
    hT.2.2.1 (le_refl 0), hT.2.2.2.2.2.1 rfl (le_refl 0)⟩
